import Mathlib

/-!
Shallow embedding of `Source/WebCore/platform/graphics/android/GLWebViewState.cpp`
(the per-view compositing state owner of the Android WebKit tiled renderer).

Machine integers are modelled as `Int`/`Nat` (all texture counts in the source
are non-negative), floats (`SkScalar`) as `ℚ`.  External collaborators
(TilesManager, SurfaceCollectionManager, ImagesManager, shader objects) are
modelled as oracle inputs: their answers are parameters of the functions that
consult them.  Process abort (`CRASH()`) is modelled by `Option`, `none` being
the aborted run.
-/

set_option autoImplicit false

namespace WebCore

/-- The layers rendering modes, in source declaration order
(`GLWebViewState.h`): `kAllTextures = 0` is the richest,
`kSingleSurfaceRendering = 4` the coarsest. -/
inductive LayersRenderingMode where
  | kAllTextures
  | kClippedTextures
  | kScrollableAndFixedLayers
  | kFixedLayers
  | kSingleSurfaceRendering
deriving DecidableEq, Fintype

open LayersRenderingMode

/-- Numeric value of the C++ enum constant; C++ comparisons between modes
compare these values (smaller = richer). -/
def modeVal : LayersRenderingMode → Nat
  | kAllTextures => 0
  | kClippedTextures => 1
  | kScrollableAndFixedLayers => 2
  | kFixedLayers => 3
  | kSingleSurfaceRendering => 4

/-- The per-frame texture demand report (`TexturesResult`), four non-negative
counts. -/
structure TexturesResult where
  fixed : Nat
  scrollable : Nat
  clipped : Nat
  full : Nat
deriving DecidableEq

/-- Skia floating-point rectangle, edges as rationals. -/
structure SkRect where
  fLeft : ℚ
  fTop : ℚ
  fRight : ℚ
  fBottom : ℚ
deriving DecidableEq

def SkRect.width (r : SkRect) : ℚ := r.fRight - r.fLeft

def SkRect.height (r : SkRect) : ℚ := r.fBottom - r.fTop

def SkRect.isEmpty (r : SkRect) : Bool :=
  decide (r.fRight ≤ r.fLeft) || decide (r.fBottom ≤ r.fTop)

/-- Skia `SkRect::Intersects`: both rectangles non-empty and strictly
overlapping. -/
def SkRect.Intersects (a b : SkRect) : Bool :=
  !a.isEmpty && !b.isEmpty &&
  decide (a.fLeft < b.fRight) && decide (b.fLeft < a.fRight) &&
  decide (a.fTop < b.fBottom) && decide (b.fTop < a.fBottom)

/-- WebCore integer rectangle (location + size). -/
structure IntRect where
  x : ℤ
  y : ℤ
  width : ℤ
  height : ℤ
deriving DecidableEq

def IntRect.maxX (r : IntRect) : ℤ := r.x + r.width

def IntRect.maxY (r : IntRect) : ℤ := r.y + r.height

/-- WebCore `IntRect::isEmpty`: non-positive width or height. -/
def IntRect.isEmpty (r : IntRect) : Bool :=
  decide (r.width ≤ 0) || decide (r.height ≤ 0)

/-- WebCore `IntRect::inflate(d)`: outset each edge by `d`. -/
def IntRect.inflate (r : IntRect) (d : ℤ) : IntRect :=
  ⟨r.x - d, r.y - d, r.width + 2 * d, r.height + 2 * d⟩

/-- WebCore `IntRect::unite`: bounding box, with the empty rectangle as
neutral element. -/
def IntRect.unite (r o : IntRect) : IntRect :=
  if o.isEmpty then r
  else if r.isEmpty then o
  else
    let l := min r.x o.x
    let t := min r.y o.y
    let rgt := max r.maxX o.maxX
    let b := max r.maxY o.maxY
    ⟨l, t, rgt - l, b - t⟩

/-- WebCore `IntRect::intersects`: both non-empty and strictly overlapping. -/
def IntRect.intersects (r o : IntRect) : Bool :=
  !r.isEmpty && !o.isEmpty &&
  decide (r.x < o.maxX) && decide (o.x < r.maxX) &&
  decide (r.y < o.maxY) && decide (o.y < r.maxY)

/-- Modelled from the spec: WebCore rectangle intersection (`IntRect::intersect`,
not in this repository slice) — the geometric intersection, or the zero
rectangle when the two do not overlap.  Used only to state what the spec says
the post-draw invalidation rectangle should be. -/
def IntRect.intersected (r o : IntRect) : IntRect :=
  let l := max r.x o.x
  let t := max r.y o.y
  let rgt := min r.maxX o.maxX
  let b := min r.maxY o.maxY
  if rgt ≤ l ∨ b ≤ t then ⟨0, 0, 0, 0⟩ else ⟨l, t, rgt - l, b - t⟩

/-! ### The texture budget and rendering-mode selector
(`GLWebViewState::setLayersRenderingMode`, lines 236-299).

The only member state the method touches is `m_layersRenderingMode`; the
TilesManager read-back `maxLayerTextureCount()` is an oracle input
`maxTexturesIn`.  The method is therefore embedded as a pure transition
function `(mode on entry, demand, read-back budget) → (committed mode,
returned boolean)`. -/

/-- Lines 254-265: default the candidate to `kSingleSurfaceRendering`, upgrade
through the four demand tests in source order, then the
`(!maxTextures && !nbTexturesNeeded.full)` special case. -/
def layersModeCandidate (need : TexturesResult) (maxTextures : Nat) :
    LayersRenderingMode :=
  let m := kSingleSurfaceRendering
  let m := if need.fixed < maxTextures then kFixedLayers else m
  let m := if need.scrollable < maxTextures then kScrollableAndFixedLayers else m
  let m := if need.clipped < maxTextures then kClippedTextures else m
  let m := if need.full < maxTextures then kAllTextures else m
  if maxTextures = 0 ∧ need.full = 0 then kAllTextures else m

/-- Lines 245-298 of `GLWebViewState::setLayersRenderingMode`. -/
def setLayersRenderingMode (mode0 : LayersRenderingMode)
    (need : TexturesResult) (maxTexturesIn : Nat) :
    LayersRenderingMode × Bool :=
  -- lines 248-252: halve the budget when already in single-surface mode
  let maxTextures :=
    if mode0 = kSingleSurfaceRendering then maxTexturesIn / 2 else maxTexturesIn
  -- lines 254-265
  let cand := layersModeCandidate need maxTextures
  -- lines 267-273
  let invalBase :=
    (decide (modeVal cand < modeVal mode0) && !(decide (cand = kAllTextures)))
    || (decide (modeVal mode0 < modeVal cand) && !(decide (cand = kClippedTextures)))
  -- lines 293-294: collapse anything coarser than kClippedTextures
  let committed :=
    if modeVal kClippedTextures < modeVal cand then kSingleSurfaceRendering else cand
  -- line 298
  (committed, decide (committed ≠ mode0) && invalBase)

/-- Modelled from the spec: the richest mode whose demand count fits strictly
under the budget (`kSingleSurfaceRendering` when none fits). -/
def richestFitting (need : TexturesResult) (maxTextures : Nat) :
    LayersRenderingMode :=
  if need.full < maxTextures then kAllTextures
  else if need.clipped < maxTextures then kClippedTextures
  else if need.scrollable < maxTextures then kScrollableAndFixedLayers
  else if need.fixed < maxTextures then kFixedLayers
  else kSingleSurfaceRendering

/-- Modelled from the spec: the base-invalidation condition of §4.2 step 5 —
candidate strictly richer than the previous mode and not `kAllTextures`, or
strictly coarser and not `kClippedTextures`. -/
def invalBaseSpec (prev cand : LayersRenderingMode) : Bool :=
  (decide (modeVal cand < modeVal prev) && !(decide (cand = kAllTextures)))
  || (decide (modeVal prev < modeVal cand) && !(decide (cand = kClippedTextures)))

/-- The final clamp of the selector (lines 293-294) as a standalone map. -/
def clampMode (m : LayersRenderingMode) : LayersRenderingMode :=
  if modeVal kClippedTextures < modeVal m then kSingleSurfaceRendering else m

/-- The effective budget the demand tests run against (lines 248-252). -/
def effectiveBudget (mode0 : LayersRenderingMode) (maxTexturesIn : Nat) : Nat :=
  if mode0 = kSingleSurfaceRendering then maxTexturesIn / 2 else maxTexturesIn

/-! ### The per-view state and its operations -/

/-- The member state of `GLWebViewState` relevant to this file
(GPU handles, managers and perf counters are external), fields in
constructor-initializer order (lines 65-75). -/
structure GLWebViewState where
  m_frameworkLayersInval : IntRect
  m_isScrolling : Bool
  m_isViewportScrolling : Bool
  m_goingDown : Bool
  m_goingLeft : Bool
  m_scale : ℚ
  m_viewport : SkRect
  m_layersRenderingMode : LayersRenderingMode
deriving DecidableEq

/-- The constructor `GLWebViewState::GLWebViewState()` (lines 65-75):
zero framework inval, not scrolling, going down, scale 1, empty viewport,
`kAllTextures`. -/
def GLWebViewState.init : GLWebViewState where
  m_frameworkLayersInval := ⟨0, 0, 0, 0⟩
  m_isScrolling := false
  m_isViewportScrolling := false
  m_goingDown := true
  m_goingLeft := false
  m_scale := 1
  m_viewport := ⟨0, 0, 0, 0⟩
  m_layersRenderingMode := kAllTextures

/-- Executable exact ceiling on `ℚ` (the model of `ceilf`; the kernel cannot
reduce the `Int.ceil` of Mathlib's floor-ring instance). -/
def ceilQ (q : ℚ) : ℤ := -((-q.num) / (q.den : ℤ))

/-- TilesManager facts consulted by `setViewport` (tile dimensions and the
high-end-graphics flag), modelled as oracle inputs. -/
structure TilesConfig where
  tileW : ℚ
  tileH : ℚ
  highEndGfx : Bool
deriving DecidableEq

/-- `GLWebViewState::setViewport` (lines 126-159).  Returns the updated state
together with the `maxTextureCount` pushed to the tile manager (the side
effect on the external TilesManager). -/
def GLWebViewState.setViewport (st : GLWebViewState) (tc : TilesConfig)
    (viewport : SkRect) (scale : ℚ) : GLWebViewState × ℤ :=
  let invTileContentWidth := scale / tc.tileW
  let invTileContentHeight := scale / tc.tileH
  let viewMaxTileX : ℤ := ceilQ ((viewport.width - 1) * invTileContentWidth) + 1
  let viewMaxTileY : ℤ := ceilQ ((viewport.height - 1) * invTileContentHeight) + 1
  let maxTextureCount := viewMaxTileX * viewMaxTileY * (if tc.highEndGfx then 4 else 2)
  -- lines 141-146: early return, clearing only the transient scrolling flag
  if st.m_viewport = viewport ∧ st.m_scale = scale then
    ({ st with m_isViewportScrolling := false }, maxTextureCount)
  else
    ({ st with
        m_scale := scale
        m_goingDown := decide (st.m_viewport.fTop - viewport.fTop ≤ 0)
        m_goingLeft := decide (st.m_viewport.fLeft - viewport.fLeft ≥ 0)
        m_isViewportScrolling :=
          !(decide (st.m_viewport = viewport)) && SkRect.Intersects st.m_viewport viewport
        m_viewport := viewport }, maxTextureCount)

/-- The accumulation step of `GLWebViewState::addDirtyArea` (lines 174-185)
on the stored rectangle. -/
def addDirtyAreaRect (acc rect : IntRect) : IntRect :=
  if rect.isEmpty then acc
  else
    let inflatedRect := rect.inflate 8
    if acc.isEmpty then inflatedRect else acc.unite inflatedRect

/-- `GLWebViewState::addDirtyArea` (lines 174-185). -/
def GLWebViewState.addDirtyArea (st : GLWebViewState) (rect : IntRect) :
    GLWebViewState :=
  { st with m_frameworkLayersInval := addDirtyAreaRect st.m_frameworkLayersInval rect }

/-- `GLWebViewState::resetLayersDirtyArea` (lines 187-193): all four
components zeroed. -/
def GLWebViewState.resetLayersDirtyArea (st : GLWebViewState) : GLWebViewState :=
  { st with m_frameworkLayersInval := ⟨0, 0, 0, 0⟩ }

/-- `GLWebViewState::setBaseLayer` (lines 95-119).  The layer pointer is
modelled by its nullness; the surface-collection queue answer `queueFull` is
an oracle input passed through as the return value.  `showVisualIndicator`
only feeds external diagnostics. -/
def GLWebViewState.setBaseLayer (st : GLWebViewState) (layerNull : Bool)
    (showVisualIndicator : Bool) (isPictureAfterFirstLayout : Bool)
    (queueFull : Bool) : GLWebViewState × Bool :=
  let st :=
    if layerNull || isPictureAfterFirstLayout then
      { st with m_layersRenderingMode := kAllTextures }
    else st
  let _ := showVisualIndicator
  (st, queueFull)

/-! ### The frame draw orchestrator (`GLWebViewState::drawGL`, lines 301-410) -/

/-- `uirenderer::DrawGlInfo::kStatusDraw`. -/
def kStatusDraw : Nat := 1

/-- `uirenderer::DrawGlInfo::kStatusInvoke`. -/
def kStatusInvoke : Nat := 2

/-- The scale sanity test of lines 326 and 341
(`scale < MIN_SCALE_WARNING || scale > MAX_SCALE_WARNING`). -/
def scaleOutOfRange (scale : ℚ) : Bool :=
  decide (scale < 1 / 10) || decide (scale > 10)

/-- Answers of the external collaborators consulted during one `drawGL` call,
supplied as oracle inputs. -/
structure DrawGLExternal where
  /-- `ImagesManager::prepareTextures` returned true (pending images). -/
  imagesPending : Bool
  /-- status flags returned by `SurfaceCollectionManager::drawGL`. -/
  collectionFlags : Nat
  /-- demand filled in by `SurfaceCollectionManager::drawGL`. -/
  collectionNeed : TexturesResult
  /-- dirty rectangles reported through `addDirtyArea` while the surface
  collection draws (layer invalidations), in call order. -/
  dirtyReports : List IntRect
  /-- `ImagesManager::nbTextures()`. -/
  nbTexturesForImages : Nat
  /-- `TilesManager::maxLayerTextureCount()` read back inside
  `setLayersRenderingMode`. -/
  maxLayerTextureCountRead : Nat
  /-- tile dimensions and gfx tier for the `setViewport` call. -/
  tiles : TilesConfig
deriving DecidableEq

/-- Lines 364-365 of `drawGL`: the image-texture count is added into both the
full and the clipped demand before the selector runs. -/
def needWithImages (ext : DrawGLExternal) : TexturesResult :=
  { ext.collectionNeed with
    full := ext.collectionNeed.full + ext.nbTexturesForImages
    clipped := ext.collectionNeed.clipped + ext.nbTexturesForImages }

/-- Lines 307-339 of `drawGL`, up to and including the pre-upload scale check
and the image-texture upload: never aborts; returns the state after
`resetLayersDirtyArea`, the initial status flags, and whether the pre-upload
check logged its warning. -/
def GLWebViewState.drawGLPreUpload (st : GLWebViewState) (scale : ℚ)
    (imagesPending : Bool) : Option (GLWebViewState × Nat × Bool) :=
  -- line 324
  let st := st.resetLayersDirtyArea
  -- lines 326-327: ALOGW only, execution continues
  let warnedBefore := scaleOutOfRange scale
  -- lines 332-339: updateDirtyTiles (external), then prepareTextures
  let returnFlags := if imagesPending then kStatusDraw else 0
  some (st, returnFlags, warnedBefore)

/-- `GLWebViewState::drawGL` (lines 301-410).  `invalRect` is the in-out
invalidation rectangle; the result is `none` when the post-upload scale check
hits `CRASH()`, otherwise the final state, the returned status flags and the
final content of `invalRect`. -/
def GLWebViewState.drawGL (st : GLWebViewState) (rect : IntRect)
    (viewport : SkRect) (invalRect : IntRect) (scale : ℚ) (shouldDraw : Bool)
    (ext : DrawGLExternal) : Option (GLWebViewState × Nat × IntRect) :=
  -- lines 307-312: profiler bookkeeping (external, keyed on shouldDraw)
  let _ := shouldDraw
  (st.drawGLPreUpload scale ext.imagesPending).bind fun pre =>
  let st := pre.1
  let returnFlags := pre.2.1
  -- lines 341-344: post-upload check, CRASH() on an out-of-range scale
  if scaleOutOfRange scale then none
  else
    -- line 347: gatherTextures (external); line 349: setupDrawing, whose
    -- last step (line 231) is setViewport(viewport, scale)
    let st := (st.setViewport ext.tiles viewport scale).1
    -- line 352
    let _fastSwap :=
      st.m_isScrolling || decide (st.m_layersRenderingMode = kSingleSurfaceRendering)
    -- lines 354-357: the surface collection draw; layers report dirty areas
    -- through addDirtyArea during it
    let st := ext.dirtyReports.foldl (fun s r => s.addDirtyArea r) st
    let returnFlags := returnFlags ||| ext.collectionFlags
    -- lines 364-368
    let sel := setLayersRenderingMode st.m_layersRenderingMode
      (needWithImages ext) ext.maxLayerTextureCountRead
    let st := { st with m_layersRenderingMode := sel.1 }
    let returnFlags :=
      if sel.2 then returnFlags ||| (kStatusDraw ||| kStatusInvoke) else returnFlags
    -- lines 375-404: the post-draw invalidation rectangle
    if returnFlags &&& kStatusDraw ≠ 0 then
      if st.m_frameworkLayersInval.isEmpty then
        some (st, returnFlags, ⟨0, 0, 0, 0⟩)
      else
        -- line 382 mutates m_frameworkLayersInval itself
        let inflated := st.m_frameworkLayersInval.inflate 1
        let st := { st with m_frameworkLayersInval := inflated }
        if inflated.intersects rect then some (st, returnFlags, inflated)
        else some (st, returnFlags, ⟨0, 0, 0, 0⟩)
    else
      some (st, returnFlags, invalRect)

/-- The dirty region accumulated from the reports of one frame, starting from
the freshly reset (zero) rectangle. -/
def accumulatedDirty (reports : List IntRect) : IntRect :=
  reports.foldl addDirtyAreaRect ⟨0, 0, 0, 0⟩

/-- The status flags a `drawGL` run returns, as a function of the mode on
entry and the oracle answers. -/
def drawGLFlags (mode0 : LayersRenderingMode) (ext : DrawGLExternal) : Nat :=
  let sel := setLayersRenderingMode mode0 (needWithImages ext)
    ext.maxLayerTextureCountRead
  let flags0 := (if ext.imagesPending then kStatusDraw else 0) |||
    ext.collectionFlags
  if sel.2 then flags0 ||| (kStatusDraw ||| kStatusInvoke) else flags0

/-- The dirty-region field a `drawGL` run leaves behind: the accumulated
region of this frame's reports, outset by 1 when the invalidation path ran on
a non-empty region. -/
def drawGLDirtyFinal (mode0 : LayersRenderingMode) (ext : DrawGLExternal) :
    IntRect :=
  if drawGLFlags mode0 ext &&& kStatusDraw ≠ 0 ∧
      ¬(accumulatedDirty ext.dirtyReports).isEmpty then
    (accumulatedDirty ext.dirtyReports).inflate 1
  else accumulatedDirty ext.dirtyReports

/-- The invalidation rectangle a `drawGL` run hands back (lines 375-404 as a
function of the inputs). -/
def drawGLInval (mode0 : LayersRenderingMode) (ext : DrawGLExternal)
    (rect inval0 : IntRect) : IntRect :=
  if drawGLFlags mode0 ext &&& kStatusDraw ≠ 0 then
    if (accumulatedDirty ext.dirtyReports).isEmpty then ⟨0, 0, 0, 0⟩
    else if ((accumulatedDirty ext.dirtyReports).inflate 1).intersects rect then
      (accumulatedDirty ext.dirtyReports).inflate 1
    else ⟨0, 0, 0, 0⟩
  else inval0

/-! ### Concrete inputs used by witnesses and counterexamples -/

/-- Tile configuration used in concrete runs: 256x256 tiles, low-end gfx. -/
def tcC : TilesConfig := ⟨256, 256, false⟩

/-- Draw rectangle used in concrete runs. -/
def rectC : IntRect := ⟨0, 0, 100, 100⟩

/-- Viewport used in concrete runs. -/
def vpC : SkRect := ⟨0, 0, 100, 100⟩

/-- Incoming invalidation rectangle used in concrete runs. -/
def invalC : IntRect := ⟨1, 2, 3, 4⟩

/-- Oracle answers of a concrete frame with a pending image upload and one
dirty-layer report partially overlapping the draw rectangle. -/
def extC5 : DrawGLExternal :=
  { imagesPending := true, collectionFlags := 0, collectionNeed := ⟨0, 0, 0, 0⟩,
    dirtyReports := [⟨95, 95, 10, 10⟩], nbTexturesForImages := 0,
    maxLayerTextureCountRead := 0, tiles := tcC }

/-- Oracle answers of a concrete quiescent frame: nothing pending, no dirty
reports, no demand. -/
def extC10 : DrawGLExternal :=
  { imagesPending := false, collectionFlags := 0, collectionNeed := ⟨0, 0, 0, 0⟩,
    dirtyReports := [], nbTexturesForImages := 0,
    maxLayerTextureCountRead := 0, tiles := tcC }

/-- A state whose current rendering mode is the coarsest fallback. -/
def stSingleC : GLWebViewState :=
  { GLWebViewState.init with m_layersRenderingMode := kSingleSurfaceRendering }

/-- The state produced by the concrete `extC5` frame. -/
def stC5Final : GLWebViewState :=
  ⟨⟨86, 86, 28, 28⟩, false, false, true, true, 1, ⟨0, 0, 100, 100⟩, kAllTextures⟩

/-- The state produced by the concrete `extC10` frame. -/
def stC10Final : GLWebViewState :=
  ⟨⟨0, 0, 0, 0⟩, false, false, true, true, 1, ⟨0, 0, 100, 100⟩, kAllTextures⟩

/-!
### Theorems

The Batteries rational operations are `@[irreducible]`; unseal them locally so
that concrete runs of the model evaluate inside `decide`.
-/

attribute [local semireducible] Rat.add Rat.mul Rat.inv Rat.sub

/-- The executable ceiling agrees with the mathematical ceiling. -/
theorem ceilQ_eq (q : ℚ) : ceilQ q = ⌈q⌉ := by
  have h : (⌊-q⌋ : ℤ) = -⌈q⌉ := Int.floor_neg
  rw [Rat.floor_def, Rat.neg_num, Rat.neg_den] at h
  rw [ceilQ, h]
  exact neg_neg _

/-- The candidate chain computes exactly: the special case overrides,
otherwise the richest fitting mode. -/
theorem layersModeCandidate_eq (need : TexturesResult) (maxT : Nat) :
    layersModeCandidate need maxT =
      if maxT = 0 ∧ need.full = 0 then kAllTextures
      else richestFitting need maxT := by
  unfold layersModeCandidate richestFitting
  split_ifs <;> rfl

/-- The committed mode of the selector is the clamp of the candidate computed
at the effective (possibly halved) budget. -/
theorem setLayersRenderingMode_fst (mode0 : LayersRenderingMode)
    (need : TexturesResult) (maxIn : Nat) :
    (setLayersRenderingMode mode0 need maxIn).1 =
      clampMode (layersModeCandidate need (effectiveBudget mode0 maxIn)) := rfl

/-- The returned boolean of the selector is the committed-mode-changed test
conjoined with the base-invalidation condition on the pre-clamp candidate. -/
theorem setLayersRenderingMode_snd (mode0 : LayersRenderingMode)
    (need : TexturesResult) (maxIn : Nat) :
    (setLayersRenderingMode mode0 need maxIn).2 =
      (decide ((setLayersRenderingMode mode0 need maxIn).1 ≠ mode0) &&
        invalBaseSpec mode0
          (layersModeCandidate need (effectiveBudget mode0 maxIn))) := rfl

/-- The candidate is monotone in demand: pointwise smaller demand gives a
mode at least as rich (smaller enum value). -/
theorem layersModeCandidate_mono (d1 d2 : TexturesResult) (maxT : Nat)
    (hf : d1.fixed ≤ d2.fixed) (hs : d1.scrollable ≤ d2.scrollable)
    (hc : d1.clipped ≤ d2.clipped) (hl : d1.full ≤ d2.full) :
    modeVal (layersModeCandidate d1 maxT) ≤ modeVal (layersModeCandidate d2 maxT) := by
  rw [layersModeCandidate_eq, layersModeCandidate_eq]
  unfold richestFitting
  split_ifs <;> simp only [modeVal] <;> omega

/-- The final clamp preserves the richness order. -/
theorem clampMode_mono :
    ∀ a b : LayersRenderingMode,
      modeVal a ≤ modeVal b → modeVal (clampMode a) ≤ modeVal (clampMode b) := by
  decide

/-- C1: at the effective budget the candidate defaults to
`kSingleSurfaceRendering` and the four upgrade tests make it the richest mode
whose demand count is strictly below the budget; a zero budget together with
zero full demand forces `kAllTextures`; and after the final clamp the
committed mode is always one of `kAllTextures`, `kClippedTextures`,
`kSingleSurfaceRendering`. -/
theorem C1_mode_selection (need : TexturesResult) (maxT : Nat)
    (mode0 : LayersRenderingMode) (maxIn : Nat) :
    (¬(maxT = 0 ∧ need.full = 0) →
      layersModeCandidate need maxT = richestFitting need maxT)
    ∧ ((maxT = 0 ∧ need.full = 0) → layersModeCandidate need maxT = kAllTextures)
    ∧ ((setLayersRenderingMode mode0 need maxIn).1 = kAllTextures ∨
       (setLayersRenderingMode mode0 need maxIn).1 = kClippedTextures ∨
       (setLayersRenderingMode mode0 need maxIn).1 = kSingleSurfaceRendering) := by
  refine ⟨?_, ?_, ?_⟩
  · intro h
    rw [layersModeCandidate_eq, if_neg h]
  · intro h
    rw [layersModeCandidate_eq, if_pos h]
  · rw [setLayersRenderingMode_fst]
    generalize layersModeCandidate need (effectiveBudget mode0 maxIn) = c
    cases c <;> simp [clampMode, modeVal]

/-- C1 witness: a concrete budget-10 selection where the candidate equals the
richest fitting mode. -/
theorem C1_mode_selection_w :
    layersModeCandidate ⟨2, 4, 8, 15⟩ 10 = richestFitting ⟨2, 4, 8, 15⟩ 10 :=
  (C1_mode_selection ⟨2, 4, 8, 15⟩ 10 kAllTextures 10).1 (by decide)

/-- C2: the budget the demand tests run against is the read-back budget
halved exactly when the mode on entry is `kSingleSurfaceRendering`; starting
in `kSingleSurfaceRendering` with read-back budget 10, a demand of exactly 6
full textures keeps the committed mode at `kSingleSurfaceRendering`, while a
demand of exactly 4 full textures (other counts no larger) commits a strictly
richer mode. -/
theorem C2_hysteresis (mode0 : LayersRenderingMode) (need : TexturesResult)
    (maxIn : Nat) :
    ((setLayersRenderingMode mode0 need maxIn).1 =
      clampMode (layersModeCandidate need
        (if mode0 = kSingleSurfaceRendering then maxIn / 2 else maxIn)))
    ∧ ((setLayersRenderingMode kSingleSurfaceRendering ⟨6, 6, 6, 6⟩ 10).1 =
        kSingleSurfaceRendering)
    ∧ (∀ f s c : Nat, f ≤ 4 → s ≤ 4 → c ≤ 4 →
        modeVal (setLayersRenderingMode kSingleSurfaceRendering ⟨f, s, c, 4⟩ 10).1 <
          modeVal kSingleSurfaceRendering) := by
  refine ⟨rfl, by decide, ?_⟩
  intro f s c _ _ _
  simp [setLayersRenderingMode, layersModeCandidate, clampMode, modeVal]

/-- C2 witness: the hysteresis example at demand 4 with all counts 4. -/
theorem C2_hysteresis_w :
    modeVal (setLayersRenderingMode kSingleSurfaceRendering ⟨4, 4, 4, 4⟩ 10).1 <
      modeVal kSingleSurfaceRendering :=
  (C2_hysteresis kAllTextures ⟨0, 0, 0, 0⟩ 0).2.2 4 4 4 (by decide) (by decide)
    (by decide)

/-- C3: the selector returns true exactly when the committed (post-clamp)
mode differs from the mode on entry and the base-invalidation condition holds
of the pre-clamp candidate; in particular it returns false whenever the
committed mode equals the mode on entry. -/
theorem C3_return_signal (mode0 : LayersRenderingMode) (need : TexturesResult)
    (maxIn : Nat) :
    ((setLayersRenderingMode mode0 need maxIn).2 = true ↔
      ((setLayersRenderingMode mode0 need maxIn).1 ≠ mode0 ∧
        invalBaseSpec mode0
          (layersModeCandidate need (effectiveBudget mode0 maxIn)) = true))
    ∧ ((setLayersRenderingMode mode0 need maxIn).1 = mode0 →
        (setLayersRenderingMode mode0 need maxIn).2 = false) := by
  constructor
  · rw [setLayersRenderingMode_snd]
    simp [Bool.and_eq_true, decide_eq_true_eq]
  · intro h
    rw [setLayersRenderingMode_snd, h]
    simp

/-- C3 witness: a quiescent selection (mode unchanged) returns false. -/
theorem C3_return_signal_w :
    (setLayersRenderingMode kAllTextures ⟨0, 0, 0, 0⟩ 5).2 = false :=
  (C3_return_signal kAllTextures ⟨0, 0, 0, 0⟩ 5).2 (by decide)

/-- C4: for a fixed mode on entry and read-back budget, the committed mode is
monotone in demand — pointwise smaller demand never commits a coarser mode;
and at budget 10 the spec example demands commit strictly richer versus
strictly coarser modes. -/
theorem C4_monotonic :
    (∀ (mode0 : LayersRenderingMode) (maxIn : Nat) (d1 d2 : TexturesResult),
      d1.fixed ≤ d2.fixed → d1.scrollable ≤ d2.scrollable →
      d1.clipped ≤ d2.clipped → d1.full ≤ d2.full →
      modeVal (setLayersRenderingMode mode0 d1 maxIn).1 ≤
        modeVal (setLayersRenderingMode mode0 d2 maxIn).1)
    ∧ modeVal (setLayersRenderingMode kAllTextures ⟨2, 4, 8, 15⟩ 10).1 <
        modeVal (setLayersRenderingMode kAllTextures ⟨12, 14, 18, 25⟩ 10).1 := by
  constructor
  · intro mode0 maxIn d1 d2 hf hs hc hl
    rw [setLayersRenderingMode_fst, setLayersRenderingMode_fst]
    exact clampMode_mono _ _ (layersModeCandidate_mono d1 d2 _ hf hs hc hl)
  · decide

/-- C4 witness: monotonicity applied to the spec example pair. -/
theorem C4_monotonic_w :
    modeVal (setLayersRenderingMode kAllTextures ⟨2, 4, 8, 15⟩ 10).1 ≤
      modeVal (setLayersRenderingMode kAllTextures ⟨12, 14, 18, 25⟩ 10).1 :=
  C4_monotonic.1 kAllTextures 10 ⟨2, 4, 8, 15⟩ ⟨12, 14, 18, 25⟩ (by decide)
    (by decide) (by decide) (by decide)

/-- setViewport never touches the accumulated dirty region. -/
theorem setViewport_inval (st : GLWebViewState) (tc : TilesConfig)
    (vp : SkRect) (s : ℚ) :
    ((st.setViewport tc vp s).1).m_frameworkLayersInval =
      st.m_frameworkLayersInval := by
  unfold GLWebViewState.setViewport
  split_ifs <;> rfl

/-- setViewport never touches the rendering mode. -/
theorem setViewport_mode (st : GLWebViewState) (tc : TilesConfig)
    (vp : SkRect) (s : ℚ) :
    ((st.setViewport tc vp s).1).m_layersRenderingMode =
      st.m_layersRenderingMode := by
  unfold GLWebViewState.setViewport
  split_ifs <;> rfl

/-- Folding the addDirtyArea method over a report list only rewrites the
dirty-region field, by the rectangle-level fold. -/
theorem foldl_addDirtyArea (l : List IntRect) (st : GLWebViewState) :
    l.foldl (fun s r => s.addDirtyArea r) st =
      { st with m_frameworkLayersInval :=
          l.foldl addDirtyAreaRect st.m_frameworkLayersInval } := by
  induction l generalizing st with
  | nil => rfl
  | cons a l ih =>
    rw [List.foldl_cons, List.foldl_cons, ih]
    rfl

set_option maxHeartbeats 2000000 in
/-- Closed form of one `drawGL` run: `none` exactly on the crash test,
otherwise the final state, the status flags and the invalidation rectangle,
each as a function of the inputs. -/
theorem drawGL_eq (st : GLWebViewState) (rect : IntRect) (vp : SkRect)
    (inval0 : IntRect) (scale : ℚ) (sd : Bool) (ext : DrawGLExternal) :
    st.drawGL rect vp inval0 scale sd ext =
      (if scaleOutOfRange scale then none
      else some
        ({ ((st.resetLayersDirtyArea).setViewport ext.tiles vp scale).1 with
            m_frameworkLayersInval := drawGLDirtyFinal st.m_layersRenderingMode ext
            m_layersRenderingMode :=
              (setLayersRenderingMode st.m_layersRenderingMode
                (needWithImages ext) ext.maxLayerTextureCountRead).1 },
          drawGLFlags st.m_layersRenderingMode ext,
          drawGLInval st.m_layersRenderingMode ext rect inval0)) := by
  unfold GLWebViewState.drawGL GLWebViewState.drawGLPreUpload
  dsimp only [Option.bind]
  rw [foldl_addDirtyArea, setViewport_inval, setViewport_mode]
  unfold drawGLInval drawGLDirtyFinal drawGLFlags accumulatedDirty
  dsimp only
  split_ifs <;> first | rfl | tauto


/-- The invalidation-path condition of `drawGLInval`, unfolded once per
branch: no draw bit passes the incoming rectangle through. -/
theorem drawGLInval_of_no_draw (mode0 : LayersRenderingMode)
    (ext : DrawGLExternal) (rect inval0 : IntRect)
    (hf : drawGLFlags mode0 ext &&& kStatusDraw = 0) :
    drawGLInval mode0 ext rect inval0 = inval0 := by
  unfold drawGLInval
  exact if_neg fun hc => hc hf

/-- C6: a `drawGL` run aborts (the `CRASH()` of the post-upload check) exactly
when the scale is outside the sane range `[1/10, 10]`; the pre-upload phase
never aborts for any scale and reports its warning exactly on the same
out-of-range condition. -/
theorem C6_scale_abort (st : GLWebViewState) (rect : IntRect) (vp : SkRect)
    (inval0 : IntRect) (scale : ℚ) (sd : Bool) (ext : DrawGLExternal) :
    ((st.drawGL rect vp inval0 scale sd ext = none) ↔
      scaleOutOfRange scale = true)
    ∧ (st.drawGLPreUpload scale ext.imagesPending).isSome = true
    ∧ (st.drawGLPreUpload scale ext.imagesPending).map (fun pre => pre.2.2) =
        some (scaleOutOfRange scale) := by
  refine ⟨?_, rfl, rfl⟩
  rw [drawGL_eq]
  by_cases hS : scaleOutOfRange scale = true <;> simp [hS]

/-- C10: when the returned status flags do not contain the draw bit, the
invalidation out-rectangle is passed back exactly as the caller supplied
it. -/
theorem C10_inval_untouched (st : GLWebViewState) (rect : IntRect)
    (vp : SkRect) (inval0 : IntRect) (scale : ℚ) (sd : Bool)
    (ext : DrawGLExternal) (st2 : GLWebViewState) (flags : Nat)
    (inval2 : IntRect)
    (h : st.drawGL rect vp inval0 scale sd ext = some (st2, flags, inval2))
    (hf : flags &&& kStatusDraw = 0) : inval2 = inval0 := by
  rw [drawGL_eq] at h
  by_cases hS : scaleOutOfRange scale = true
  · rw [if_pos hS] at h
    exact Option.noConfusion h
  · rw [if_neg hS] at h
    have h2 := Option.some.inj h
    rw [Prod.mk.injEq, Prod.mk.injEq] at h2
    obtain ⟨-, hF, hI⟩ := h2
    subst hF
    rw [← hI]
    exact drawGLInval_of_no_draw _ _ _ _ hf

/-- C10 witness: the quiescent concrete frame returns flag 0 and hands back
the incoming rectangle. -/
theorem C10_inval_untouched_w : invalC = invalC :=
  C10_inval_untouched GLWebViewState.init rectC vpC invalC 1 true extC10
    stC10Final 0 invalC (by decide) (by decide)

/-- C5 counterexample: a concrete frame whose draw bit is set, whose
accumulated dirty region is non-empty and whose outset dirty region
intersects the draw rectangle, yet whose returned invalidation rectangle is
the outset dirty region itself and not its intersection with the draw
rectangle. -/
theorem C5_inval_cex :
    (GLWebViewState.init.drawGL rectC vpC invalC 1 true extC5 =
      some (stC5Final, 1, ⟨86, 86, 28, 28⟩))
    ∧ decide (1 &&& kStatusDraw = 0) = false
    ∧ (accumulatedDirty extC5.dirtyReports).isEmpty = false
    ∧ ((accumulatedDirty extC5.dirtyReports).inflate 1).intersects rectC = true
    ∧ decide ((⟨86, 86, 28, 28⟩ : IntRect) =
        IntRect.intersected ((accumulatedDirty extC5.dirtyReports).inflate 1)
          rectC) = false := by
  decide

/-- C5 (amended): on a draw-flagged return, an empty accumulated dirty region
yields the zero-rectangle sentinel; a non-empty region whose 1-outset does
not intersect the draw rectangle yields the sentinel; otherwise the returned
rectangle is the dirty region outset by 1 itself, not clipped to the draw
rectangle. -/
theorem C5_inval_amended (st : GLWebViewState) (rect : IntRect) (vp : SkRect)
    (inval0 : IntRect) (scale : ℚ) (sd : Bool) (ext : DrawGLExternal)
    (st2 : GLWebViewState) (flags : Nat) (inval2 : IntRect)
    (h : st.drawGL rect vp inval0 scale sd ext = some (st2, flags, inval2))
    (hd : flags &&& kStatusDraw ≠ 0) :
    ((accumulatedDirty ext.dirtyReports).isEmpty = true →
      inval2 = ⟨0, 0, 0, 0⟩)
    ∧ ((accumulatedDirty ext.dirtyReports).isEmpty = false →
        ((accumulatedDirty ext.dirtyReports).inflate 1).intersects rect = false →
        inval2 = ⟨0, 0, 0, 0⟩)
    ∧ ((accumulatedDirty ext.dirtyReports).isEmpty = false →
        ((accumulatedDirty ext.dirtyReports).inflate 1).intersects rect = true →
        inval2 = (accumulatedDirty ext.dirtyReports).inflate 1) := by
  rw [drawGL_eq] at h
  by_cases hS : scaleOutOfRange scale = true
  · rw [if_pos hS] at h
    exact Option.noConfusion h
  · rw [if_neg hS] at h
    have h2 := Option.some.inj h
    rw [Prod.mk.injEq, Prod.mk.injEq] at h2
    obtain ⟨-, hF, hI⟩ := h2
    subst hF
    rw [← hI]
    unfold drawGLInval
    rw [if_pos hd]
    refine ⟨fun he => ?_, fun he hi => ?_, fun he hi => ?_⟩
    · simp [he]
    · simp [he, hi]
    · simp [he, hi]

/-- C5 witness: on the concrete partially-overlapping frame the returned
rectangle equals the outset dirty region. -/
theorem C5_inval_amended_w :
    (⟨86, 86, 28, 28⟩ : IntRect) =
      (accumulatedDirty extC5.dirtyReports).inflate 1 :=
  (C5_inval_amended GLWebViewState.init rectC vpC invalC 1 true extC5
      stC5Final 1 ⟨86, 86, 28, 28⟩ (by decide) (by decide)).2.2
    (by decide) (by decide)


/-- C7: after `setViewport` the `m_isViewportScrolling` flag is true exactly
when the incoming viewport differs from the stored one and geometrically
intersects it; in particular it is false on an identical `(rect, scale)`
repeat and false on disjoint rectangles. -/
theorem C7_viewport_scrolling (st : GLWebViewState) (tc : TilesConfig)
    (vp : SkRect) (s : ℚ) :
    ((((st.setViewport tc vp s).1).m_isViewportScrolling = true) ↔
      (vp ≠ st.m_viewport ∧ SkRect.Intersects st.m_viewport vp = true))
    ∧ (vp = st.m_viewport ∧ s = st.m_scale →
        ((st.setViewport tc vp s).1).m_isViewportScrolling = false)
    ∧ (SkRect.Intersects st.m_viewport vp = false →
        ((st.setViewport tc vp s).1).m_isViewportScrolling = false) := by
  unfold GLWebViewState.setViewport
  by_cases hEq : st.m_viewport = vp ∧ st.m_scale = s
  · rw [if_pos hEq]
    obtain ⟨h1, h2⟩ := hEq
    refine ⟨?_, fun hv => rfl, fun hI => rfl⟩
    simp [h1]
  · rw [if_neg hEq]
    refine ⟨?_, fun hv => absurd ⟨hv.1.symm, hv.2.symm⟩ hEq, fun hI => ?_⟩
    · dsimp only
      simp only [Bool.and_eq_true, Bool.not_eq_true', decide_eq_false_iff_not]
      constructor
      · rintro ⟨hne, hins⟩
        exact ⟨fun he => hne he.symm, hins⟩
      · rintro ⟨hne, hins⟩
        exact ⟨fun he => hne he.symm, hins⟩
    · dsimp only
      simp [hI]

/-- C7 witness: an identical viewport and scale repeat clears the flag. -/
theorem C7_viewport_scrolling_w :
    ((GLWebViewState.init.setViewport tcC ⟨0, 0, 0, 0⟩ 1).1).m_isViewportScrolling
      = false :=
  (C7_viewport_scrolling GLWebViewState.init tcC ⟨0, 0, 0, 0⟩ 1).2.1 (by decide)

/-- C9 counterexample: `setBaseLayer` with a null layer changes the stored
rendering mode (from `kSingleSurfaceRendering` to `kAllTextures`), so it is
not left unchanged by every non-selector operation. -/
theorem C9_mode_sticky_cex :
    decide (((stSingleC.setBaseLayer true false false false).1).m_layersRenderingMode
      = stSingleC.m_layersRenderingMode) = false := by
  decide

/-- C9 (amended): the rendering mode is sticky state mutated only by the
selector and by `setBaseLayer`, which forces it to `kAllTextures` exactly
when the incoming layer is null or the picture is the one after a first
layout; `setViewport`, `addDirtyArea` and `resetLayersDirtyArea` leave it
unchanged. -/
theorem C9_mode_sticky_amended :
    (∀ (st : GLWebViewState) (ln sv pf qf : Bool),
      ((st.setBaseLayer ln sv pf qf).1).m_layersRenderingMode =
        (if ln || pf then kAllTextures else st.m_layersRenderingMode))
    ∧ (∀ (st : GLWebViewState) (tc : TilesConfig) (vp : SkRect) (s : ℚ),
        ((st.setViewport tc vp s).1).m_layersRenderingMode =
          st.m_layersRenderingMode)
    ∧ (∀ (st : GLWebViewState) (r : IntRect),
        (st.addDirtyArea r).m_layersRenderingMode = st.m_layersRenderingMode)
    ∧ (∀ st : GLWebViewState,
        (st.resetLayersDirtyArea).m_layersRenderingMode =
          st.m_layersRenderingMode) := by
  refine ⟨?_, ?_, fun st r => rfl, fun st => rfl⟩
  · intro st ln sv pf qf
    unfold GLWebViewState.setBaseLayer
    dsimp only
    split_ifs <;> rfl
  · intro st tc vp s
    exact setViewport_mode st tc vp s

/-- C8: the accumulated dirty region is reset exactly once per `drawGL`,
before the frame's dirty reports are collected — the run is independent of
the incoming region, and the final region is derived solely from this frame's
reports starting from empty — and no other operation ever clears it:
`addDirtyArea` that yields an empty region was a no-op, and `setViewport`,
`setBaseLayer` leave the region untouched. -/
theorem C8_dirty_reset :
    (∀ (st : GLWebViewState) (A rect : IntRect) (vp : SkRect)
        (inval0 : IntRect) (scale : ℚ) (sd : Bool) (ext : DrawGLExternal),
      ({ st with m_frameworkLayersInval := A } : GLWebViewState).drawGL
          rect vp inval0 scale sd ext =
        st.drawGL rect vp inval0 scale sd ext)
    ∧ (∀ (st : GLWebViewState) (rect : IntRect) (vp : SkRect)
        (inval0 : IntRect) (scale : ℚ) (sd : Bool) (ext : DrawGLExternal)
        (st2 : GLWebViewState) (flags : Nat) (inval2 : IntRect),
        st.drawGL rect vp inval0 scale sd ext = some (st2, flags, inval2) →
        (st2.m_frameworkLayersInval = accumulatedDirty ext.dirtyReports ∨
         st2.m_frameworkLayersInval =
           (accumulatedDirty ext.dirtyReports).inflate 1))
    ∧ (∀ acc r : IntRect, (addDirtyAreaRect acc r).isEmpty = true →
        addDirtyAreaRect acc r = acc)
    ∧ (∀ (st : GLWebViewState) (tc : TilesConfig) (vp : SkRect) (s : ℚ),
        ((st.setViewport tc vp s).1).m_frameworkLayersInval =
          st.m_frameworkLayersInval)
    ∧ (∀ (st : GLWebViewState) (ln sv pf qf : Bool),
        ((st.setBaseLayer ln sv pf qf).1).m_frameworkLayersInval =
          st.m_frameworkLayersInval) := by
  refine ⟨?_, ?_, ?_, ?_, ?_⟩
  · intro st A rect vp inval0 scale sd ext
    cases st
    rfl
  · intro st rect vp inval0 scale sd ext st2 flags inval2 h
    rw [drawGL_eq] at h
    by_cases hS : scaleOutOfRange scale = true
    · rw [if_pos hS] at h
      exact Option.noConfusion h
    · rw [if_neg hS] at h
      have h2 := Option.some.inj h
      rw [Prod.mk.injEq, Prod.mk.injEq] at h2
      obtain ⟨hA, -, -⟩ := h2
      rw [← hA]
      unfold drawGLDirtyFinal
      dsimp only
      split_ifs with hc
      · exact Or.inr rfl
      · exact Or.inl rfl
  · intro acc r he
    unfold addDirtyAreaRect at he ⊢
    dsimp only at he ⊢
    split_ifs at he ⊢ with h1 h2
    · rfl
    · exfalso
      simp only [IntRect.isEmpty, IntRect.inflate, Bool.or_eq_true,
        decide_eq_true_eq, Bool.not_eq_true] at he h1
      omega
    · exfalso
      unfold IntRect.unite at he
      dsimp only at he
      split_ifs at he with hu1
      · exact h2 he
      · simp only [IntRect.isEmpty, IntRect.inflate, IntRect.maxX,
          IntRect.maxY, Bool.or_eq_true, decide_eq_true_eq,
          Bool.not_eq_true] at he h1 h2
        omega
  · intro st tc vp s
    exact setViewport_inval st tc vp s
  · intro st ln sv pf qf
    unfold GLWebViewState.setBaseLayer
    dsimp only
    split_ifs <;> rfl

/-- C8 witness: the quiescent concrete run leaves the dirty region equal to
the accumulation of its (empty) report list. -/
theorem C8_dirty_reset_w :
    stC10Final.m_frameworkLayersInval = accumulatedDirty extC10.dirtyReports ∨
    stC10Final.m_frameworkLayersInval =
      (accumulatedDirty extC10.dirtyReports).inflate 1 :=
  C8_dirty_reset.2.1 GLWebViewState.init rectC vpC invalC 1 true extC10
    stC10Final 0 invalC (by decide)

end WebCore
